import Mathlib

/-!
Verification of the style-fetcher dispatch subsystem of nitpick
(`src/nitpick/style/fetchers/__init__.py`).

The Python code is shallowly embedded: the URL-classification helper
`_get_domain_scheme`, the dispatch method `StyleFetcherManager.fetch`, the
registry construction `_fetchers_to_pairs` / `_get_fetchers` (Python `dict`
built from a pair iterable, later pairs overwriting earlier ones), the
urllib scheme registration `_register_on_urllib`, and the cached-session
construction from `__post_init__`.

Code of the repository that the excerpt imports but that is not part of the
excerpt (`nitpick.generic.is_url`, `nitpick.style.parse_cache_option`,
`nitpick.enums.CachingEnum`, and the concrete fetcher variants) is modelled
from the specification; each such definition carries a doc comment starting
with "Modelled from the spec:".
-/

namespace Nitpick

/-! ## Model of the parts of `urllib.parse` used by the excerpt

`urlparse` is the Python standard library. The fields the excerpt reads
(`scheme` and `hostname`) are modelled over strings as lists of
characters, together with the netloc validation of `urlsplit` that raises
`ValueError("Invalid IPv6 URL")` on a square bracket without its partner
(`_get_domain_schemeE` carries this error path; `_get_domain_scheme` is
its value on the non-raising inputs). Two stdlib regions stay outside the
model and are excluded by hypothesis wherever a theorem could touch them:
the parsing of a bracketed (IPv6) host itself, and the NFKC-normalization
check, which is a no-op on ASCII netlocs. -/

/-- Characters allowed in a URL scheme (urllib.parse `scheme_chars`):
letters, digits and `+`, `-`, `.`. -/
def scheme_char (c : Char) : Bool :=
  c.isAlpha || c.isDigit || c == '+' || c == '-' || c == '.'

/-- Scheme extraction as in `urllib.parse.urlsplit`: when the text before
the first colon is non-empty, starts with a letter, and consists of scheme
characters only, it is the scheme (lower-cased) and the rest follows the
colon; otherwise the scheme is empty and the whole input remains.
Returns `(scheme, remainder)`. -/
def splitScheme (url : List Char) : List Char × List Char :=
  match url.dropWhile (· ≠ ':'), url.takeWhile (· ≠ ':') with
  | ':' :: rest, c :: cs =>
      if c.isAlpha && (c :: cs).all scheme_char then
        ((c :: cs).map Char.toLower, rest)
      else ([], url)
  | _, _ => ([], url)

/-- Network-location text extraction as in `_splitnetloc` inside
`urllib.parse.urlsplit`: when the remainder after the scheme starts with
`//`, the netloc runs up to the next `/`, `?` or `#`; otherwise it is
empty. The validation `urlsplit` applies to this text is modelled
separately by `extractNetlocE`. -/
def extractNetloc (rest : List Char) : List Char :=
  match rest with
  | '/' :: '/' :: r => r.takeWhile (fun c => c ≠ '/' && c ≠ '?' && c ≠ '#')
  | _ => []

/-- Errors `urllib.parse.urlsplit` can raise on the inputs the excerpt
passes it. -/
inductive ValueError where
  | invalidIPv6URL
deriving DecidableEq

/-- The netloc validation of `urlsplit`: a `[` without a `]`, or a `]`
without a `[`, raises `ValueError("Invalid IPv6 URL")`. -/
def bracketMismatch (netloc : List Char) : Bool :=
  (decide ('[' ∈ netloc) && !decide (']' ∈ netloc))
    || (decide (']' ∈ netloc) && !decide ('[' ∈ netloc))

/-- Network-location extraction with the error path of `urlsplit`: the
netloc text, unless its brackets are mismatched. (When the remainder does
not start with `//` no netloc is extracted and nothing is validated, as
in the source.) -/
def extractNetlocE (rest : List Char) : Except ValueError (List Char) :=
  if bracketMismatch (extractNetloc rest) then Except.error ValueError.invalidIPv6URL
  else Except.ok (extractNetloc rest)

/-- The part of the netloc after the last `@` (drops the userinfo),
as in `netloc.rpartition(chr(64))[2]`. -/
def afterLastAt (l : List Char) : List Char :=
  (l.reverse.takeWhile (· ≠ '@')).reverse

/-- The host portion of a bracket-free netloc: after the last `@`,
before the first `:` (the port separator). -/
def hostOf (netloc : List Char) : List Char :=
  (afterLastAt netloc).takeWhile (· ≠ ':')

/-- Hostname of a bracket-free netloc as computed by the `hostname`
property of a parse result: drop the userinfo, drop the port, then
lower-case only up to the first `%` — a scoped-IPv6 zone id after the
percent sign keeps its case, as in the CPython property's
`hostname.partition(sep)` step. An absent hostname is the empty list (the
Python `None` is folded with the `or` to the empty string at the use
site). -/
def hostnameOf (netloc : List Char) : List Char :=
  ((hostOf netloc).takeWhile (· ≠ '%')).map Char.toLower
    ++ (hostOf netloc).dropWhile (· ≠ '%')

/-- The `scheme` field of `urlparse url`. -/
def urlparseScheme (url : String) : String :=
  ⟨(splitScheme url.data).1⟩

/-- The `hostname` field of `urlparse url`, with Python's `None` rendered
as the empty string (the excerpt immediately applies `or` with an empty
string to it). -/
def urlparseHostname (url : String) : String :=
  ⟨hostnameOf (extractNetloc (splitScheme url.data).2)⟩

/-- Modelled from the spec: `nitpick.generic.is_url` is imported by the
excerpt but its module is not under src/. Per the spec (§4.1), an
identifier is a URL exactly when it parses with a scheme component
recognized as a URL, where a bare drive letter — a single letter before a
colon — is not a scheme; so the parsed scheme must be longer than one
character. -/
def is_url (url : String) : Bool :=
  (splitScheme url.data).1.length > 1

/-- Value of `StyleFetcherManager._get_domain_scheme` on the inputs where
`urlparse` does not raise: for a URL, the pair
`(hostname or empty, scheme)`; otherwise `(empty, file)`. The faithful
embedding including the `ValueError` path is `_get_domain_schemeE`, which
agrees with this function wherever it returns. -/
def _get_domain_scheme (url : String) : String × String :=
  if is_url url then (urlparseHostname url, urlparseScheme url)
  else ("", "file")

/-- Embedding of `StyleFetcherManager._get_domain_scheme` with the error
path of `urlparse`: a recognized URL whose netloc has mismatched brackets
raises the invalid-IPv6 `ValueError` (which the source does not catch);
anything not recognized as a URL never reaches `urlparse` and degrades to
`(empty, file)`. -/
def _get_domain_schemeE (url : String) : Except ValueError (String × String) :=
  if is_url url then
    match extractNetlocE (splitScheme url.data).2 with
    | Except.error e => Except.error e
    | Except.ok netloc => Except.ok (⟨hostnameOf netloc⟩, urlparseScheme url)
  else Except.ok ("", "file")

/-! ## Data model of the dispatch subsystem -/

/-- Result pair of a fetch: optional resolved local path and text content
(`StyleInfo = Tuple[Optional[Path], str]`). -/
def StyleInfo : Type := Option String × String

instance : DecidableEq StyleInfo := by
  unfold StyleInfo
  infer_instance

/-- A fetcher variant, by the capability interface the dispatcher consumes:
whether it needs the network, the schemes and domains it serves, and its
own fetch behavior (a black box to the dispatcher). -/
structure StyleFetcher where
  requires_connection : Bool
  protocols : List String
  domains : List String
  fetch : String → StyleInfo

/-- Errors raised on the dispatch path. The excerpt raises a `RuntimeError`
whose message carries the unsupported scheme; the spec names this condition
`UnsupportedProtocol`. -/
inductive FetchError where
  | unsupportedProtocol (scheme : String)
deriving DecidableEq

/-- Modelled from the spec: `nitpick.enums.CachingEnum` is imported by the
excerpt but its module is not under src/. The three cache modes the policy
parser can yield: cache indefinitely, do not cache, expire after an
explicit duration. -/
inductive CachingEnum where
  | FOREVER
  | NEVER
  | EXPIRES
deriving DecidableEq, BEq

/-- Expiration passed to the cached session: no expiration (cache forever),
immediate expiration (never serve from cache), or an explicit duration
(kept as the raw policy text). -/
inductive Expiration where
  | noExpiration
  | immediate
  | after (raw : String)
deriving DecidableEq

/-- Upper-casing, character by character. -/
def strUpper (s : String) : String :=
  ⟨s.data.map Char.toUpper⟩

/-- Whitespace trimming at both ends, character by character. -/
def strTrim (s : String) : String :=
  ⟨((s.data.dropWhile Char.isWhitespace).reverse.dropWhile Char.isWhitespace).reverse⟩

/-- Modelled from the spec: `nitpick.style.parse_cache_option` is imported
by the excerpt but its module is not under src/. Per the spec (§4.4):
"never" means no caching (immediate expiration), "forever" or unset means
cache indefinitely (no expiration), and any other value is an explicit
duration; matching is case-insensitive on the trimmed string. -/
def parse_cache_option (cache_option : String) : CachingEnum × Expiration :=
  let v := strUpper (strTrim cache_option)
  if v == "NEVER" then (CachingEnum.NEVER, Expiration.immediate)
  else if v == "FOREVER" || v == "" then (CachingEnum.FOREVER, Expiration.noExpiration)
  else (CachingEnum.EXPIRES, Expiration.after cache_option)

/-- The cached HTTP session, by the three construction arguments the
excerpt passes to `CachedSession`. -/
structure CachedSession where
  cache_path : String
  expire_after : Expiration
  cache_control : Bool
deriving DecidableEq

/-- Embedding of the session construction in
`StyleFetcherManager.__post_init__`: parse the cache option, set
`cache_control` exactly when the caching mode is `EXPIRES`, and root the
cache store at `cache_dir/"styles"`. -/
def buildSession (cache_dir : String) (cache_option : String) : CachedSession :=
  let parsed := parse_cache_option cache_option
  { cache_path := cache_dir ++ "/styles"
    expire_after := parsed.2
    cache_control := parsed.1 == CachingEnum.EXPIRES }

/-! ## Registry construction -/

/-- A Python `dict` built from an iterable of key/value pairs, as queried
with `dict.get`: a later pair with the same key overwrites an earlier one,
so lookup returns the value of the last pair carrying the key. -/
def dictOfPairs (pairs : List (String × StyleFetcher)) : String → Option StyleFetcher :=
  fun k => (pairs.reverse.find? (fun p => p.1 == k)).map Prod.snd

/-- The registry pairs contributed by one fetcher: one pair per declared
protocol, then one pair per declared domain. -/
def pairsOf (f : StyleFetcher) : List (String × StyleFetcher) :=
  f.protocols.map (fun p => (p, f)) ++ f.domains.map (fun d => (d, f))

/-- Embedding of `_fetchers_to_pairs`: for each fetcher in order, yield a
pair per declared protocol, then a pair per declared domain. (The urllib
registration side effect performed per protocol is modelled separately by
`_register_on_urllib` below.) -/
def _fetchers_to_pairs (fetchers : List StyleFetcher) : List (String × StyleFetcher) :=
  (fetchers.map pairsOf).flatten

/-- A fetcher claims a registry key when the key is one of its protocols
or one of its domains. -/
def claimsKey (f : StyleFetcher) (k : String) : Prop :=
  k ∈ f.protocols ∨ k ∈ f.domains

/-- Modelled from the spec: the concrete module of the file fetcher is not
under src/. It needs no connection and serves the `file` scheme; its fetch
behavior is a black box passed as an argument. -/
def FileFetcher (fetchFn : String → StyleInfo) : StyleFetcher :=
  { requires_connection := false, protocols := ["file"], domains := [], fetch := fetchFn }

/-- Modelled from the spec: the concrete module of the HTTP fetcher is not
under src/. It requires a connection and serves the `http` and `https`
schemes. -/
def HttpFetcher (fetchFn : String → StyleInfo) : StyleFetcher :=
  { requires_connection := true, protocols := ["http", "https"], domains := [], fetch := fetchFn }

/-- Modelled from the spec: the concrete module of the GitHub fetcher is
not under src/. It requires a connection, serves the `gh` and `github`
schemes, and claims the domain `github.com` (spec §3). -/
def GitHubFetcher (fetchFn : String → StyleInfo) : StyleFetcher :=
  { requires_connection := true, protocols := ["gh", "github"], domains := ["github.com"]
    fetch := fetchFn }

/-- Modelled from the spec: the concrete module of the Python-package
fetcher is not under src/. It needs no connection and serves the `py` and
`pypackage` schemes. -/
def PythonPackageFetcher (fetchFn : String → StyleInfo) : StyleFetcher :=
  { requires_connection := false, protocols := ["py", "pypackage"], domains := []
    fetch := fetchFn }

/-- Embedding of `_get_fetchers`: construct the four variants in the fixed
order file, HTTP, GitHub, Python-package, and build the registry dict from
their pairs. The variants' fetch behaviors are black boxes, passed as
arguments (in Python they close over the shared session when the variant
requires a connection). -/
def _get_fetchers (fileFn httpFn ghFn pyFn : String → StyleInfo) :
    String → Option StyleFetcher :=
  dictOfPairs (_fetchers_to_pairs
    [FileFetcher fileFn, HttpFetcher httpFn, GitHubFetcher ghFn, PythonPackageFetcher pyFn])

/-! ## The dispatcher -/

/-- Dispatcher state: the `offline` flag and the derived fetcher registry
(`fetchers.get` is the registry lookup). The raw configuration strings and
the derived session do not influence dispatch and are kept in
`buildSession` only. -/
structure StyleFetcherManager where
  offline : Bool
  fetchers : String → Option StyleFetcher

/-- Embedding of `StyleFetcherManager.fetch`: classify, look up by domain
when the domain is non-empty, fall back to lookup by scheme, raise
`UnsupportedProtocol` when both fail, short-circuit to `(None, empty)` when
offline and the fetcher requires a connection, otherwise delegate to the
fetcher. -/
def StyleFetcherManager.fetch (self : StyleFetcherManager) (url : String) :
    Except FetchError StyleInfo :=
  let ds := _get_domain_scheme url
  let fetcher0 : Option StyleFetcher :=
    if ds.1 ≠ "" then self.fetchers ds.1 else none
  let fetcher1 : Option StyleFetcher :=
    match fetcher0 with
    | none => self.fetchers ds.2
    | some f => some f
  match fetcher1 with
  | none => Except.error (FetchError.unsupportedProtocol ds.2)
  | some fetcher =>
      if self.offline && fetcher.requires_connection then Except.ok (none, "")
      else Except.ok (fetcher.fetch url)

/-- The fetcher-resolution part of `fetch` on its own: domain lookup first
(only when the domain is non-empty), then scheme lookup. -/
def StyleFetcherManager.resolve (self : StyleFetcherManager) (url : String) :
    Option StyleFetcher :=
  let ds := _get_domain_scheme url
  match (if ds.1 ≠ "" then self.fetchers ds.1 else none) with
  | none => self.fetchers ds.2
  | some f => some f

/-- Replace the fetch behavior of every registered fetcher, keeping the
capability declarations. Used to state that a dispatch result does not
depend on any fetcher's own fetch method being invoked. -/
def withFetchBehavior (m : StyleFetcherManager) (alt : String → StyleInfo) :
    StyleFetcherManager :=
  { m with fetchers := fun k => (m.fetchers k).map fun f => { f with fetch := alt } }

/-! ## Registration with urllib -/

/-- Process-wide state touched by `_register_on_urllib`: the two urllib
scheme tables and the memo of the `lru_cache` wrapper (the set of protocol
arguments already seen). -/
structure UrllibState where
  uses_relative : List String
  uses_netloc : List String
  memo : List String

/-- Embedding of `_register_on_urllib`: a repeated call with a protocol
already in the memo is a no-op (`lru_cache`); a first call appends the
protocol to each table unless the table already contains it. -/
def _register_on_urllib (st : UrllibState) (protocol : String) : UrllibState :=
  if protocol ∈ st.memo then st
  else
    { uses_relative :=
        if protocol ∈ st.uses_relative then st.uses_relative
        else st.uses_relative ++ [protocol]
      uses_netloc :=
        if protocol ∈ st.uses_netloc then st.uses_netloc
        else st.uses_netloc ++ [protocol]
      memo := protocol :: st.memo }

/-- N repeated registration calls for the same protocol. -/
def registerN (st : UrllibState) (protocol : String) : Nat → UrllibState
  | 0 => st
  | n + 1 => registerN (_register_on_urllib st protocol) protocol n

/-! ## Concrete instances used by the witnesses -/

/-- A fetch behavior returning no path and a fixed tag, so that dispatch
results identify which fetcher produced them. -/
def fetchStub (tag : String) : String → StyleInfo := fun _ => (none, tag)

/-- A dispatcher over the registry of the four standard variants, with
tagged stub behaviors. -/
def demoManager (offline : Bool) : StyleFetcherManager :=
  { offline := offline
    fetchers := _get_fetchers (fetchStub "file") (fetchStub "http")
      (fetchStub "github") (fetchStub "pypackage") }

/-- A fetcher claiming the scheme `x`, constructed early. -/
def earlyFetcher : StyleFetcher :=
  { requires_connection := false, protocols := ["x"], domains := [], fetch := fetchStub "early" }

/-- A fetcher claiming the scheme `x`, constructed later. -/
def lateFetcher : StyleFetcher :=
  { requires_connection := false, protocols := ["x"], domains := [], fetch := fetchStub "late" }

/-! ## Classification lemmas -/

/-- A well-formed scheme followed by a colon splits off as the lower-cased
scheme. -/
theorem splitScheme_recognized (c : Char) (cs rest : List Char)
    (hc : c.isAlpha = true) (hcs : (c :: cs).all scheme_char = true) :
    splitScheme ((c :: cs) ++ ':' :: rest) = ((c :: cs).map Char.toLower, rest) := by
  have hne : ∀ a ∈ c :: cs, (a ≠ ':' : Bool) := by
    intro a ha
    have := List.all_eq_true.mp hcs a ha
    simp only [decide_eq_true_eq]
    intro e
    subst e
    simp [scheme_char] at this
  rw [splitScheme]
  rw [List.dropWhile_append_of_pos hne, List.takeWhile_append_of_pos hne]
  simp [hc, hcs, List.dropWhile, List.takeWhile]

/-- Without a colon there is no scheme. -/
theorem splitScheme_no_colon (l : List Char) (h : ':' ∉ l) :
    splitScheme l = ([], l) := by
  have hd : l.dropWhile (· ≠ ':') = [] :=
    List.dropWhile_eq_nil_iff.mpr (by
      intro x hx
      simp only [decide_eq_true_eq]
      intro e
      exact h (e ▸ hx))
  rw [splitScheme, hd]

/-- A colon-free identifier (an absolute or relative path) classifies as a
local file. -/
theorem get_domain_scheme_no_colon (s : String) (h : ':' ∉ s.data) :
    _get_domain_scheme s = ("", "file") := by
  have hs := splitScheme_no_colon s.data h
  simp [_get_domain_scheme, is_url, hs]

/-- A single-letter drive prefix before a colon classifies as a local file,
never as a URL scheme. -/
theorem get_domain_scheme_drive (c : Char) (rest : String) (hc : c.isAlpha = true) :
    _get_domain_scheme ⟨c :: ':' :: rest.data⟩ = ("", "file") := by
  have hcs : ([c] : List Char).all scheme_char = true := by
    simp [scheme_char, hc]
  have hs := splitScheme_recognized c [] rest.data hc hcs
  simp only [List.cons_append, List.nil_append] at hs
  simp [_get_domain_scheme, is_url, hs]

/-- Wherever the netloc validation passes, the fallible classifier
returns the pure classification. -/
theorem get_domain_schemeE_ok (s : String)
    (hbm : bracketMismatch (extractNetloc (splitScheme s.data).2) = false) :
    _get_domain_schemeE s = Except.ok (_get_domain_scheme s) := by
  unfold _get_domain_schemeE _get_domain_scheme extractNetlocE
  by_cases h : is_url s <;> simp [h, hbm, urlparseHostname]

/-! ## Claims about classification -/

/-- C4: classification maps local filesystem paths of every form to
`("", "file")` — the five documented scenarios, every identifier with a
single-letter drive prefix before a colon (never classified as a URL
scheme), and every colon-free absolute or relative path — while
`http://server.com/abc` classifies as `("server.com", "http")`. -/
theorem C4_local_paths_classify_as_file :
    _get_domain_scheme "/abc" = ("", "file")
  ∧ _get_domain_scheme "file:///abc" = ("", "file")
  ∧ _get_domain_scheme "c:\\abc" = ("", "file")
  ∧ _get_domain_scheme "c:/abc" = ("", "file")
  ∧ _get_domain_scheme "http://server.com/abc" = ("server.com", "http")
  ∧ (∀ (c : Char) (rest : String), c.isAlpha = true →
      _get_domain_scheme ⟨c :: ':' :: rest.data⟩ = ("", "file"))
  ∧ (∀ s : String, ':' ∉ s.data → _get_domain_scheme s = ("", "file")) :=
  ⟨by decide, by decide, by decide, by decide, by decide,
   get_domain_scheme_drive, get_domain_scheme_no_colon⟩

/-- Witness for C4: the universal parts at the drive path `d:data` and at
the relative path `relative/path`. -/
theorem C4_local_paths_classify_as_file_witness :
    _get_domain_scheme ⟨'d' :: ':' :: "data".data⟩ = ("", "file")
  ∧ _get_domain_scheme "relative/path" = ("", "file") :=
  ⟨C4_local_paths_classify_as_file.2.2.2.2.2.1 'd' "data" (by decide),
   C4_local_paths_classify_as_file.2.2.2.2.2.2 "relative/path" (by decide)⟩

/-- C5, counterexample: the claim promises `(host, scheme)` with only the
scheme lower-cased, but the code returns the `hostname` field of the parse
result, which is lower-cased as well: `http://A/b` classifies as
`("a", "http")`, not `("A", "http")`. -/
theorem C5_host_case_counterexample :
    _get_domain_scheme "http://A/b" = ("a", "http")
  ∧ _get_domain_scheme "http://A/b" ≠ ("A", "http") := by
  constructor <;> decide

/-- C5, amended: for every URL `scheme://host/path` whose scheme is a
recognized URL scheme (letter first, scheme characters only, more than one
character) and whose ASCII host contains no delimiter character and no
bracket, classification returns the scheme lower-cased and the host
lower-cased up to the first `%`, with the `%` and the zone suffix after it
keeping their case (as the `hostname` property computes it); a host
without `%` is therefore returned fully lower-cased. Both the pure
classification and the fallible embedding (which raises on no such input)
agree on this value. -/
theorem C5_url_classification (c : Char) (cs host path : List Char)
    (hc : c.isAlpha = true) (hcs : (c :: cs).all scheme_char = true)
    (hlen : cs ≠ [])
    (hhost : ∀ a ∈ host, a ≠ '/' ∧ a ≠ '?' ∧ a ≠ '#' ∧ a ≠ ':' ∧ a ≠ '@' ∧
      a ≠ '[' ∧ a ≠ ']' ∧ a.toNat < 128) :
    _get_domain_scheme ⟨(c :: cs) ++ ':' :: '/' :: '/' :: (host ++ '/' :: path)⟩ =
      (⟨(host.takeWhile (· ≠ '%')).map Char.toLower ++ host.dropWhile (· ≠ '%')⟩,
       ⟨(c :: cs).map Char.toLower⟩)
  ∧ _get_domain_schemeE ⟨(c :: cs) ++ ':' :: '/' :: '/' :: (host ++ '/' :: path)⟩ =
      Except.ok
        (⟨(host.takeWhile (· ≠ '%')).map Char.toLower ++ host.dropWhile (· ≠ '%')⟩,
         ⟨(c :: cs).map Char.toLower⟩) := by
  have hsplit := splitScheme_recognized c cs ('/' :: '/' :: (host ++ '/' :: path)) hc hcs
  have hurl : is_url ⟨(c :: cs) ++ ':' :: '/' :: '/' :: (host ++ '/' :: path)⟩ = true := by
    simp only [is_url, String.data, hsplit]
    cases cs with
    | nil => exact absurd rfl hlen
    | cons b bs => simp
  have hnetpred : ∀ a ∈ host, ((a ≠ '/' && a ≠ '?' && a ≠ '#') : Bool) := by
    intro a ha
    obtain ⟨h1, h2, h3, _⟩ := hhost a ha
    simp [h1, h2, h3]
  have hnet : extractNetloc ('/' :: '/' :: (host ++ '/' :: path)) = host := by
    rw [extractNetloc]
    rw [List.takeWhile_append_of_pos hnetpred]
    simp [List.takeWhile]
  have hat : afterLastAt host = host := by
    unfold afterLastAt
    rw [List.takeWhile_eq_self_iff.mpr ?_, List.reverse_reverse]
    intro x hx
    obtain ⟨_, _, _, _, h5, _⟩ := hhost x (List.mem_reverse.mp hx)
    simp [h5]
  have hhostof : hostOf host = host := by
    unfold hostOf
    rw [hat]
    refine List.takeWhile_eq_self_iff.mpr ?_
    intro x hx
    obtain ⟨_, _, _, h4, _⟩ := hhost x hx
    simp [h4]
  have hhostn : hostnameOf host =
      (host.takeWhile (· ≠ '%')).map Char.toLower ++ host.dropWhile (· ≠ '%') := by
    unfold hostnameOf
    rw [hhostof]
  have hpure : _get_domain_scheme ⟨(c :: cs) ++ ':' :: '/' :: '/' :: (host ++ '/' :: path)⟩ =
      (⟨(host.takeWhile (· ≠ '%')).map Char.toLower ++ host.dropWhile (· ≠ '%')⟩,
       ⟨(c :: cs).map Char.toLower⟩) := by
    simp only [_get_domain_scheme, hurl, if_true, urlparseHostname, urlparseScheme,
      String.data, hsplit, hnet, hhostn]
  refine ⟨hpure, ?_⟩
  have hbm : bracketMismatch (extractNetloc (splitScheme
      (⟨(c :: cs) ++ ':' :: '/' :: '/' :: (host ++ '/' :: path)⟩ : String).data).2) = false := by
    have h6 : '[' ∉ host := fun hm => ((hhost _ hm).2.2.2.2.2.1) rfl
    have h7 : ']' ∉ host := fun hm => ((hhost _ hm).2.2.2.2.2.2.1) rfl
    simp only [String.data, hsplit, hnet]
    simp [bracketMismatch, h6, h7]
  rw [get_domain_schemeE_ok _ hbm, hpure]

/-- Witness for C5 (amended): `hTTp://EX%41MPLE/x` classifies as
`("ex%41MPLE", "http")` — the scheme and the host before the `%` are
lower-cased, the rest of the host keeps its case. -/
theorem C5_url_classification_witness :
    _get_domain_scheme "hTTp://EX%41MPLE/x" = ("ex%41MPLE", "http")
  ∧ _get_domain_schemeE "hTTp://EX%41MPLE/x" = Except.ok ("ex%41MPLE", "http") :=
  C5_url_classification 'h' ['T', 'T', 'p']
    ['E', 'X', '%', '4', '1', 'M', 'P', 'L', 'E'] ['x']
    (by decide) (by decide) (by decide) (by decide)

/-- C6, counterexample: classification is not exception-free — for
`http://[abc` the scheme is recognized, so `urlparse` runs and its netloc
validation raises `ValueError("Invalid IPv6 URL")`; no (domain, scheme)
pair is returned and the input does not degrade to `("", "file")`. -/
theorem C6_classification_raises_counterexample :
    _get_domain_schemeE "http://[abc" = Except.error ValueError.invalidIPv6URL := rfl

/-- C6, amended: classification never raises only away from the bracket
paths — for every ASCII input string whose extracted network location
contains no square bracket at all, the classifier returns a
(domain, scheme) pair equal to the pure classification; every string not
recognized as a URL never reaches `urlparse` and degrades to
`("", "file")` whatever its netloc text looks like; and a recognized URL
whose network location has mismatched brackets raises the invalid-IPv6
error instead of returning. The two restrictions keep the no-raise part
inside the modelled region: the NFKC-normalization check of `urlsplit`
returns immediately on an ASCII netloc, and a bracketed (IPv6-literal)
netloc takes host-parsing and validation paths that are not modelled
here. -/
theorem C6_classification_no_raise_bracket_free (s : String) :
    (s.data.all (fun ch => ch.toNat < 128) = true →
      '[' ∉ extractNetloc (splitScheme s.data).2 →
      ']' ∉ extractNetloc (splitScheme s.data).2 →
      _get_domain_schemeE s = Except.ok (_get_domain_scheme s))
  ∧ (is_url s = false → _get_domain_schemeE s = Except.ok ("", "file"))
  ∧ (is_url s = true →
      bracketMismatch (extractNetloc (splitScheme s.data).2) = true →
      _get_domain_schemeE s = Except.error ValueError.invalidIPv6URL) := by
  refine ⟨fun _ h1 h2 => get_domain_schemeE_ok s ?_, fun h => ?_, fun h hbm => ?_⟩
  · simp [bracketMismatch, h1, h2]
  · simp [_get_domain_schemeE, h]
  · simp [_get_domain_schemeE, extractNetlocE, h, hbm]

/-- Witness for C6 (amended): a well-formed URL classifies without
raising, the malformed identifier `ht tp://x` degrades to the file
classification, and a URL with a lone closing bracket in its netloc
raises. -/
theorem C6_classification_no_raise_bracket_free_witness :
    _get_domain_schemeE "http://good.example/x" =
      Except.ok (_get_domain_scheme "http://good.example/x")
  ∧ _get_domain_schemeE "ht tp://x" = Except.ok ("", "file")
  ∧ _get_domain_schemeE "http://]oops/x" = Except.error ValueError.invalidIPv6URL :=
  ⟨(C6_classification_no_raise_bracket_free "http://good.example/x").1
      (by decide) (by decide) (by decide),
   (C6_classification_no_raise_bracket_free "ht tp://x").2.1 (by decide),
   (C6_classification_no_raise_bracket_free "http://]oops/x").2.2
      (by decide) (by decide)⟩

/-! ## Dispatch lemmas -/

/-- `fetch` is resolution followed by the error / offline / delegate
decision. -/
theorem fetch_eq_resolve (m : StyleFetcherManager) (url : String) :
    m.fetch url =
      match m.resolve url with
      | none => Except.error (FetchError.unsupportedProtocol (_get_domain_scheme url).2)
      | some f =>
          if m.offline && f.requires_connection then Except.ok ((none, "") : StyleInfo)
          else Except.ok (f.fetch url) := rfl

/-- Resolution fails when both the domain and the scheme lookups fail. -/
theorem resolve_eq_none (m : StyleFetcherManager) (url : String)
    (hd : m.fetchers (_get_domain_scheme url).1 = none)
    (hs : m.fetchers (_get_domain_scheme url).2 = none) :
    m.resolve url = none := by
  unfold StyleFetcherManager.resolve
  by_cases h : (_get_domain_scheme url).1 ≠ "" <;> simp [h, hd, hs]

/-- Resolution returns the domain-keyed fetcher whenever the classified
domain is non-empty and registered, whatever the scheme lookup would
give. -/
theorem resolve_domain (m : StyleFetcherManager) (url : String) (f : StyleFetcher)
    (hne : (_get_domain_scheme url).1 ≠ "")
    (hf : m.fetchers (_get_domain_scheme url).1 = some f) :
    m.resolve url = some f := by
  unfold StyleFetcherManager.resolve
  simp [hne, hf]

/-- Replacing every registered fetcher's behavior commutes with
resolution. -/
theorem resolve_withFetchBehavior (m : StyleFetcherManager) (alt : String → StyleInfo)
    (url : String) :
    (withFetchBehavior m alt).resolve url =
      (m.resolve url).map fun f => { f with fetch := alt } := by
  unfold StyleFetcherManager.resolve withFetchBehavior
  by_cases h : (_get_domain_scheme url).1 = ""
  · cases hs : m.fetchers (_get_domain_scheme url).2 <;> simp [h, hs]
  · cases hd : m.fetchers (_get_domain_scheme url).1 <;>
      cases hs : m.fetchers (_get_domain_scheme url).2 <;> simp [h, hd, hs]

/-- A failed resolution raises the unsupported-protocol error carrying the
classified scheme. -/
theorem fetch_of_resolve_none (m : StyleFetcherManager) (url : String)
    (h : m.resolve url = none) :
    m.fetch url = Except.error (FetchError.unsupportedProtocol (_get_domain_scheme url).2) := by
  rw [fetch_eq_resolve, h]

/-! ## Claims about dispatch -/

/-- C1: when the classification yields a non-empty domain and both a
domain entry and a scheme entry exist in the registry, the domain-keyed
fetcher is the one that handles the fetch (the scheme-keyed fetcher `g` is
not consulted). -/
theorem C1_domain_priority (m : StyleFetcherManager) (url : String) (f g : StyleFetcher)
    (hd : (_get_domain_scheme url).1 ≠ "")
    (hf : m.fetchers (_get_domain_scheme url).1 = some f)
    (hg : m.fetchers (_get_domain_scheme url).2 = some g) :
    m.fetch url =
      (if m.offline && f.requires_connection then Except.ok ((none, "") : StyleInfo)
       else Except.ok (f.fetch url)) := by
  rw [fetch_eq_resolve, resolve_domain m url f hd hf]

/-- Witness for C1: `https://github.com/style` has a domain entry
(GitHub fetcher) and a scheme entry (HTTP fetcher); the GitHub fetcher
handles it. -/
theorem C1_domain_priority_witness :
    (demoManager false).fetch "https://github.com/style" =
      Except.ok ((none, "github") : StyleInfo) := by
  have h := C1_domain_priority (demoManager false) "https://github.com/style"
    (GitHubFetcher (fetchStub "github")) (HttpFetcher (fetchStub "http"))
    (by decide) rfl rfl
  simpa [demoManager, GitHubFetcher, fetchStub] using h

/-- C2: when the dispatcher is offline and the resolved fetcher requires a
connection, `fetch` returns `(none, "")` without raising, and the result
is the same whatever fetch behavior the registered fetchers carry — no
fetcher's fetch method is invoked. -/
theorem C2_offline_short_circuit (m : StyleFetcherManager) (url : String) (f : StyleFetcher)
    (hres : m.resolve url = some f)
    (hconn : f.requires_connection = true)
    (hoff : m.offline = true) :
    m.fetch url = Except.ok ((none, "") : StyleInfo)
  ∧ ∀ alt : String → StyleInfo,
      (withFetchBehavior m alt).fetch url = Except.ok ((none, "") : StyleInfo) := by
  constructor
  · rw [fetch_eq_resolve, hres]
    simp [hoff, hconn]
  · intro alt
    rw [fetch_eq_resolve, resolve_withFetchBehavior, hres]
    simp [withFetchBehavior, hoff, hconn]

/-- Witness for C2: offline, `https://example.com/x` resolves to the HTTP
fetcher (which requires a connection) and the offline dispatcher returns
the empty result. -/
theorem C2_offline_short_circuit_witness :
    (demoManager true).fetch "https://example.com/x" = Except.ok ((none, "") : StyleInfo) :=
  (C2_offline_short_circuit (demoManager true) "https://example.com/x"
    (HttpFetcher (fetchStub "http")) rfl rfl rfl).1

/-- C3: when neither the classified domain nor the classified scheme has a
registry entry, `fetch` raises the unsupported-protocol error carrying the
classified scheme string. -/
theorem C3_unsupported_protocol (m : StyleFetcherManager) (url : String)
    (hd : m.fetchers (_get_domain_scheme url).1 = none)
    (hs : m.fetchers (_get_domain_scheme url).2 = none) :
    m.fetch url = Except.error (FetchError.unsupportedProtocol (_get_domain_scheme url).2) :=
  fetch_of_resolve_none m url (resolve_eq_none m url hd hs)

/-- Witness for C3: `ftp://example.com/x` matches no domain and no scheme;
the error carries `ftp`. -/
theorem C3_unsupported_protocol_witness :
    (demoManager false).fetch "ftp://example.com/x" =
      Except.error (FetchError.unsupportedProtocol "ftp") := by
  have h := C3_unsupported_protocol (demoManager false) "ftp://example.com/x" rfl rfl
  rwa [(by decide : (_get_domain_scheme "ftp://example.com/x").2 = "ftp")] at h

/-- C10: the unsupported-protocol check precedes the offline check — an
unresolvable identifier raises even on an offline dispatcher — and any
successful fetch result implies the identifier resolved to a registered
fetcher. -/
theorem C10_unsupported_before_offline (m : StyleFetcherManager) (url : String)
    (hd : m.fetchers (_get_domain_scheme url).1 = none)
    (hs : m.fetchers (_get_domain_scheme url).2 = none) :
    ({ m with offline := true } : StyleFetcherManager).fetch url =
      Except.error (FetchError.unsupportedProtocol (_get_domain_scheme url).2)
  ∧ ∀ (m' : StyleFetcherManager) (u : String) (r : StyleInfo),
      m'.fetch u = Except.ok r → ∃ f, m'.resolve u = some f := by
  constructor
  · exact fetch_of_resolve_none _ url (resolve_eq_none _ url hd hs)
  · intro m' u r hok
    cases hres : m'.resolve u with
    | none =>
        rw [fetch_of_resolve_none m' u hres] at hok
        exact absurd hok (by simp)
    | some f => exact ⟨f, rfl⟩

/-- Witness for C10: `ftp://host/x` raises even offline, and the
successful fetch of `https://github.com/top` resolves to a fetcher. -/
theorem C10_unsupported_before_offline_witness :
    ({ demoManager false with offline := true } : StyleFetcherManager).fetch "ftp://host/x" =
      Except.error (FetchError.unsupportedProtocol "ftp")
  ∧ ∃ f, (demoManager false).resolve "https://github.com/top" = some f := by
  have h := C10_unsupported_before_offline (demoManager false) "ftp://host/x" rfl rfl
  refine ⟨?_, h.2 (demoManager false) "https://github.com/top" (none, "github") rfl⟩
  have h1 := h.1
  rwa [(by decide : (_get_domain_scheme "ftp://host/x").2 = "ftp")] at h1

/-! ## Claims about urllib registration -/

/-- Once the protocol is in the memo, further registrations are no-ops. -/
theorem registerN_of_mem_memo (st : UrllibState) (p : String) (n : Nat)
    (h : p ∈ st.memo) : registerN st p n = st := by
  induction n with
  | zero => rfl
  | succ k ih =>
      rw [registerN, _register_on_urllib, if_pos h]
      exact ih

/-- The guarded append leaves exactly one copy in a table that held at
most one. -/
theorem register_table_count (table : List String) (p : String)
    (h : table.count p ≤ 1) :
    (if p ∈ table then table else table ++ [p]).count p = 1 := by
  by_cases hm : p ∈ table
  · rw [if_pos hm]
    have := List.one_le_count_iff.mpr hm
    omega
  · rw [if_neg hm, List.count_append, List.count_eq_zero.mpr hm]
    simp

/-- C7: scheme registration with urllib is idempotent — starting from a
state whose memo has not seen the protocol and whose tables hold it at
most once, any positive number of repeated registrations leaves exactly
one entry for it in each of the two scheme tables. -/
theorem C7_registration_idempotent (st : UrllibState) (p : String) (N : Nat)
    (hmemo : p ∉ st.memo)
    (hrel : st.uses_relative.count p ≤ 1)
    (hnet : st.uses_netloc.count p ≤ 1)
    (hN : 1 ≤ N) :
    (registerN st p N).uses_relative.count p = 1
  ∧ (registerN st p N).uses_netloc.count p = 1 := by
  obtain ⟨k, rfl⟩ : ∃ k, N = k + 1 := ⟨N - 1, by omega⟩
  rw [registerN]
  have hmem1 : p ∈ (_register_on_urllib st p).memo := by
    rw [_register_on_urllib, if_neg hmemo]
    exact List.mem_cons_self _ _
  rw [registerN_of_mem_memo _ _ _ hmem1]
  rw [_register_on_urllib, if_neg hmemo]
  exact ⟨register_table_count _ _ hrel, register_table_count _ _ hnet⟩

/-- Witness for C7: three registrations of `gh` over tables already
holding `http` leave exactly one `gh` entry in each table. -/
theorem C7_registration_idempotent_witness :
    (registerN ⟨["http"], ["http"], []⟩ "gh" 3).uses_relative.count "gh" = 1
  ∧ (registerN ⟨["http"], ["http"], []⟩ "gh" 3).uses_netloc.count "gh" = 1 :=
  C7_registration_idempotent ⟨["http"], ["http"], []⟩ "gh" 3
    (by decide) (by decide) (by decide) (by decide)

/-! ## Claim about the cache session -/

/-- C8: the session's `cache_control` flag is true exactly when the cache
policy resolves to an explicit duration; "forever" yields no expiration
with the flag false, "never" yields immediate expiration with the flag
false, and any other policy value yields that value as the expiration with
the flag true. -/
theorem C8_cache_control_iff_duration (cache_dir opt : String) :
    ((buildSession cache_dir opt).cache_control = true ↔
      ∃ raw, (buildSession cache_dir opt).expire_after = Expiration.after raw)
  ∧ (buildSession cache_dir "forever").expire_after = Expiration.noExpiration
  ∧ (buildSession cache_dir "forever").cache_control = false
  ∧ (buildSession cache_dir "never").expire_after = Expiration.immediate
  ∧ (buildSession cache_dir "never").cache_control = false
  ∧ (strUpper (strTrim opt) ≠ "NEVER" → strUpper (strTrim opt) ≠ "FOREVER" →
      strUpper (strTrim opt) ≠ "" →
      (buildSession cache_dir opt).expire_after = Expiration.after opt
        ∧ (buildSession cache_dir opt).cache_control = true) := by
  refine ⟨?_, rfl, rfl, rfl, rfl, ?_⟩
  · unfold buildSession parse_cache_option
    by_cases h1 : strUpper (strTrim opt) = "NEVER"
    · simp [h1]
      decide
    · by_cases h2 : strUpper (strTrim opt) = "FOREVER"
      · simp [h1, h2]
        decide
      · by_cases h3 : strUpper (strTrim opt) = ""
        · simp [h1, h2, h3]
          decide
        · simp [h1, h2, h3]
          decide
  · intro h1 h2 h3
    unfold buildSession parse_cache_option
    simp [h1, h2, h3]
    decide

/-- Witness for C8: the explicit duration `1 hour` is kept as the
expiration and sets `cache_control`. -/
theorem C8_cache_control_iff_duration_witness :
    (buildSession "/var/cache" "1 hour").expire_after = Expiration.after "1 hour"
  ∧ (buildSession "/var/cache" "1 hour").cache_control = true :=
  (C8_cache_control_iff_duration "/var/cache" "1 hour").2.2.2.2.2
    (by decide) (by decide) (by decide)

/-! ## Claim about registry construction -/

/-- Every pair contributed by a fetcher carries that fetcher as value. -/
theorem pairsOf_snd (f : StyleFetcher) (pr : String × StyleFetcher)
    (h : pr ∈ pairsOf f) : pr.2 = f := by
  simp only [pairsOf, List.mem_append, List.mem_map] at h
  rcases h with ⟨a, _, rfl⟩ | ⟨a, _, rfl⟩ <;> rfl

/-- Every pair contributed by a fetcher is keyed by a protocol or a domain
the fetcher claims. -/
theorem pairsOf_key (f : StyleFetcher) (pr : String × StyleFetcher)
    (h : pr ∈ pairsOf f) : claimsKey f pr.1 := by
  simp only [pairsOf, List.mem_append, List.mem_map] at h
  rcases h with ⟨a, ha, rfl⟩ | ⟨a, ha, rfl⟩
  · exact Or.inl ha
  · exact Or.inr ha

/-- A fetcher claiming a key contributes a pair with that key. -/
theorem mem_pairsOf_of_claims (f : StyleFetcher) (k : String) (h : claimsKey f k) :
    (k, f) ∈ pairsOf f := by
  simp only [pairsOf, List.mem_append, List.mem_map]
  rcases h with h | h
  · exact Or.inl ⟨k, h, rfl⟩
  · exact Or.inr ⟨k, h, rfl⟩

/-- The pairs of fetchers none of which claims the key contain no match
for the key. -/
theorem find?_fetchers_none (l : List StyleFetcher) (k : String)
    (h : ∀ g ∈ l, ¬ claimsKey g k) :
    (_fetchers_to_pairs l).reverse.find? (fun pr => pr.1 == k) = none := by
  rw [List.find?_eq_none]
  intro pr hpr hk
  rw [List.mem_reverse, _fetchers_to_pairs, List.mem_flatten] at hpr
  obtain ⟨chunk, hchunk, hpr⟩ := hpr
  obtain ⟨g, hg, rfl⟩ := List.mem_map.mp hchunk
  rw [beq_iff_eq] at hk
  exact h g hg (hk ▸ pairsOf_key g pr hpr)

/-- C9: registry construction is last-write-wins — when a variant `g`
constructed earlier and a variant `f` constructed later both claim the key
`k`, and no variant after `f` claims it, the registry built by
`dict(_fetchers_to_pairs(...))` binds `k` to `f`; the collision raises no
error (the lookup succeeds). -/
theorem C9_last_write_wins (pre post : List StyleFetcher) (f g : StyleFetcher) (k : String)
    (hg : g ∈ pre) (hgk : claimsKey g k) (hfk : claimsKey f k)
    (hpost : ∀ h ∈ post, ¬ claimsKey h k) :
    dictOfPairs (_fetchers_to_pairs (pre ++ f :: post)) k = some f := by
  have hsplit : _fetchers_to_pairs (pre ++ f :: post) =
      _fetchers_to_pairs pre ++ (pairsOf f ++ _fetchers_to_pairs post) := by
    simp [_fetchers_to_pairs]
  unfold dictOfPairs
  rw [hsplit, List.reverse_append, List.reverse_append, List.append_assoc,
    List.find?_append, List.find?_append]
  rw [find?_fetchers_none post k hpost, Option.none_or]
  have hex : ∃ pr, pr ∈ (pairsOf f).reverse ∧ (pr.1 == k) = true :=
    ⟨(k, f), List.mem_reverse.mpr (mem_pairsOf_of_claims f k hfk), by simp⟩
  obtain ⟨pr, hpr⟩ := Option.isSome_iff_exists.mp (List.find?_isSome.mpr hex)
  rw [hpr, Option.or_some]
  have hmem := List.mem_reverse.mp (List.mem_of_find?_eq_some hpr)
  simp [pairsOf_snd f pr hmem]

/-- Witness for C9: two fetchers both claiming the scheme `x`; the
later-constructed one ends up bound in the registry. -/
theorem C9_last_write_wins_witness :
    dictOfPairs (_fetchers_to_pairs [earlyFetcher, lateFetcher]) "x" = some lateFetcher :=
  C9_last_write_wins [earlyFetcher] [] lateFetcher earlyFetcher "x"
    (by simp) (Or.inl (by simp [earlyFetcher])) (Or.inl (by simp [lateFetcher]))
    (by simp)

end Nitpick
